import Mathlib

/-!
Verification of the Magic Unicorn TTS synthesis engine
(`web_interface_magic_unicorn.py`, `kokoro_mlir_integration.py`).

The Python sources are shallowly embedded: pure computations become Lean
functions over `ℚ`/`ℤ`/`List`, Python exceptions become `Except`/`Option`
results, and external library calls (phonemizer, vocabulary, ONNX inference,
`json.loads`, the filesystem) are passed in as function parameters.
-/

namespace MagicUnicorn

/-- Python `str.strip()` on the default whitespace set, as used by
`text.strip()` and `result.stdout.strip()`: drop leading and trailing
whitespace characters.  Written over the character list so the kernel can
evaluate it on concrete strings. -/
def pyStrip (s : String) : String :=
  String.mk (((s.data.dropWhile Char.isWhitespace).reverse.dropWhile
    Char.isWhitespace).reverse)

/-- Python `str.startswith(pre)`. -/
def py_startswith (s pre : String) : Bool := pre.data.isPrefixOf s.data

/-- Python `str.endswith(suf)`. -/
def py_endswith (s suf : String) : Bool := s.data.reverse.take suf.data.length
  = suf.data.reverse

/-- Helper for `split_nl`: accumulate the current line (reversed) while
scanning the character list. -/
def split_nl_aux : List Char → List Char → List String
  | [], acc => [String.mk acc.reverse]
  | c :: cs, acc =>
      if c = '\n' then String.mk acc.reverse :: split_nl_aux cs []
      else split_nl_aux cs (c :: acc)

/-- Python `str.split('\n')`. -/
def split_nl (s : String) : List String := split_nl_aux s.data []

/-! ## Backends and capability (spec §4.3; `create_audio`,
`run_synthesis_subprocess`) -/

/-- The three execution strategies named by the spec. -/
inductive Backend
  | accelerated
  | basic_accelerated
  | cpu
  deriving DecidableEq, Repr

/-- Runtime capability state (spec §3 `BackendCapability`, availability part). -/
structure BackendCapability where
  accelerated_available : Bool
  basic_accelerated_available : Bool
  deriving DecidableEq, Repr

/-- Modelled from the spec's words (§4.3), for refinement comparison with the
code: `select(requestedMethod, capability)` with the stated precedence. -/
def select_spec (requestedMethod : String) (capability : BackendCapability) : Backend :=
  if requestedMethod = "auto" then
    if capability.accelerated_available then Backend.accelerated
    else if capability.basic_accelerated_available then Backend.basic_accelerated
    else Backend.cpu
  else if requestedMethod = "accelerated" then
    if capability.accelerated_available then Backend.accelerated else Backend.cpu
  else if requestedMethod = "basic_accelerated" then
    if capability.basic_accelerated_available then Backend.basic_accelerated else Backend.cpu
  else Backend.cpu

/-- The backend actually chosen by `KokoroMLIRNPUIntegration.create_audio`
(`kokoro_mlir_integration.py` lines 120-135): the NPU-accelerated path iff
`self.acceleration_enabled`, otherwise the CPU Kokoro path.  There is no
other input to the choice. -/
def create_audio_backend (acceleration_enabled : Bool) : Backend :=
  if acceleration_enabled then Backend.accelerated else Backend.cpu

/-! ## Real-time-factor computations (spec §3 MetricRecord, §4.6) -/

/-- The rtf computation of `_create_audio_npu_accelerated`
(`kokoro_mlir_integration.py` line 194):
`rtf = generation_time / audio_duration if audio_duration > 0 else 0`. -/
def npu_rtf (generation_time audio_duration : ℚ) : ℚ :=
  if 0 < audio_duration then generation_time / audio_duration else 0

/-- The rtf computation of the `/synthesize` handler
(`web_interface_magic_unicorn.py` line 1462):
`rtf = generation_time / audio_duration`, with no guard.  Python float
division by zero raises `ZeroDivisionError`, modelled as `none`. -/
def synthesize_rtf (generation_time audio_duration : ℚ) : Option ℚ :=
  if audio_duration = 0 then none else some (generation_time / audio_duration)

/-! ## The worker script and its result protocol
(`run_synthesis_subprocess`, `web_interface_magic_unicorn.py` lines 210-346) -/

/-- The single structured result line the worker prints (lines 253-271):
either a success record referencing the persisted audio artifact, or a
failure record with the stringified exception. -/
inductive WorkerMsg
  | success (sample_rate : ℕ) (audio_file : String) (method_used : String) (voice : String)
  | failure (error : String)
  deriving DecidableEq, Repr

/-- What the worker script writes to the filesystem: on success it saves the
audio to an artifact file, on failure it writes nothing. -/
inductive WorkerWrite
  | wrote (path : String) (audio : List ℚ)
  | nothing
  deriving DecidableEq, Repr

/-- The worker script body (lines 240-271), parameterised by the external
`kokoro.create` call.  On success the audio is saved to the hard-coded path
`audio_file = "/tmp/synthesis_result.npy"` (line 250) — a constant, not
derived from the request — and the success line references that path; any
exception becomes a failure line.  Returns the filesystem effect and the
printed result line. -/
def worker_script (kokoro_create : String → String → Except String (List ℚ × ℕ))
    (text voice : String) : WorkerWrite × WorkerMsg :=
  match kokoro_create text voice with
  | Except.ok (audio, sample_rate) =>
      (WorkerWrite.wrote "/tmp/synthesis_result.npy" audio,
       WorkerMsg.success sample_rate "/tmp/synthesis_result.npy" "Real Kokoro TTS" voice)
  | Except.error e => (WorkerWrite.nothing, WorkerMsg.failure e)

/-- Captured output of the finished worker process
(`subprocess.run(..., capture_output=True)`, lines 284-287). -/
structure WorkerOutput where
  returncode : ℤ
  stdout : String
  stderr : String

/-- The parent's result for one worker invocation: a structured success, a
structured `success: false` error carrying diagnostics (the dict literals at
lines 293-297, 308-312, 329-333, 334-343), or a Python exception escaping
`run_synthesis_subprocess` uncaught. -/
inductive SubprocessResult
  | ok (audio : List ℚ) (sample_rate : ℕ) (method_used : String) (voice : String)
  | err (msg : String)
  | uncaught (msg : String)
  deriving DecidableEq, Repr

/-- Error string of lines 340-343:
`f"Subprocess failed with code {...}. STDOUT: '{...}', STDERR: '{...}'"`. -/
def nonzero_exit_msg (returncode : ℤ) (stdout stderr : String) : String :=
  "Subprocess failed with code " ++ toString returncode ++ ". STDOUT: '" ++ stdout
    ++ "', STDERR: '" ++ stderr ++ "'"

/-- Error string of lines 294-297:
`f"Subprocess returned empty output. STDERR: {result.stderr}"`. -/
def empty_output_msg (stderr : String) : String :=
  "Subprocess returned empty output. STDERR: " ++ stderr

/-- Error string of lines 309-312:
`f"No JSON found in output. STDOUT: '{...}', STDERR: '{...}'"`. -/
def no_json_msg (stdout stderr : String) : String :=
  "No JSON found in output. STDOUT: '" ++ stdout ++ "', STDERR: '" ++ stderr ++ "'"

/-- Error string of lines 335-338:
`f"JSON parse error: {e}. STDOUT: '{...}', STDERR: '{...}'"`. -/
def parse_error_msg (e stdout stderr : String) : String :=
  "JSON parse error: " ++ e ++ ". STDOUT: '" ++ stdout ++ "', STDERR: '" ++ stderr ++ "'"

/-- The scan of lines 300-306: first stripped line that starts with a left
brace and ends with a right brace. -/
def find_json_line : List String → Option String
  | [] => none
  | l :: ls =>
      let line := pyStrip l
      if py_startswith line "\x7b" && py_endswith line "\x7d" then some line
      else find_json_line ls

/-- The parent's processing of the worker's captured output (lines 289-343).
`json_loads` stands for `json.loads` (returning `Except e msg`, where an
error models `json.JSONDecodeError e` — the only exception the inner `try`
catches); `np_load` stands for `np.load`, `none` meaning the path does not
exist.  A missing artifact makes `np.load` raise `FileNotFoundError`, which
no handler in this function catches — modelled as `SubprocessResult.uncaught`. -/
def process_worker_output (json_loads : String → Except String WorkerMsg)
    (np_load : String → Option (List ℚ)) (out : WorkerOutput) : SubprocessResult :=
  if out.returncode ≠ 0 then
    SubprocessResult.err (nonzero_exit_msg out.returncode out.stdout out.stderr)
  else
    let stdout_clean := pyStrip out.stdout
    if stdout_clean = "" then SubprocessResult.err (empty_output_msg out.stderr)
    else
      match find_json_line (split_nl stdout_clean) with
      | none => SubprocessResult.err (no_json_msg out.stdout out.stderr)
      | some json_line =>
          match json_loads json_line with
          | Except.error e => SubprocessResult.err (parse_error_msg e out.stdout out.stderr)
          | Except.ok (WorkerMsg.failure e) => SubprocessResult.err e
          | Except.ok (WorkerMsg.success sample_rate audio_file method_used voice) =>
              match np_load audio_file with
              | some audio => SubprocessResult.ok audio sample_rate method_used voice
              | none => SubprocessResult.uncaught
                  ("FileNotFoundError: [Errno 2] No such file or directory: '"
                    ++ audio_file ++ "'")

/-- `run_synthesis_subprocess(text, voice, method)` (lines 210-346),
parameterised by the worker execution.  The generated script receives only
`text` and `voice` (lines 217-219, 247); the `method` parameter is never
read anywhere in the function body. -/
def run_synthesis_subprocess (worker : String → String → WorkerOutput)
    (json_loads : String → Except String WorkerMsg) (np_load : String → Option (List ℚ))
    (text voice method : String) : SubprocessResult :=
  process_worker_output json_loads np_load (worker text voice)

/-! ## The `/synthesize` HTTP handler
(`web_interface_magic_unicorn.py` lines 1412-1505) -/

/-- Status code and `success` flag of the JSON response. -/
structure HandlerResponse where
  status : ℕ
  success : Bool
  deriving DecidableEq, Repr

/-- The `/synthesize` handler (lines 1412-1505), parameterised by the
subprocess runner and by the elapsed wall-clock time `generation_time`
(line 1460).  Blank text returns 400 (lines 1423-1427) before any synthesis
runs.  A failed subprocess result raises (line 1436), and any exception in
the `try` block — including the unguarded `rtf` division of line 1462 when
`audio_duration` is zero, and the `len(audio)/sample_rate` division when
`sample_rate` is zero — is converted by the `except` block into a 500
response with `success: false` (lines 1497-1505). -/
def synthesize (run : String → String → String → SubprocessResult)
    (generation_time : ℚ) (text voice method : String) : HandlerResponse :=
  if pyStrip text = "" then ⟨400, false⟩
  else
    match run text voice method with
    | SubprocessResult.ok audio sample_rate _ _ =>
        if sample_rate = 0 then ⟨500, false⟩
        else
          let audio_duration : ℚ := (audio.length : ℚ) / (sample_rate : ℚ)
          match synthesize_rtf generation_time audio_duration with
          | some _ => ⟨200, true⟩
          | none => ⟨500, false⟩
    | SubprocessResult.err _ => ⟨500, false⟩
    | SubprocessResult.uncaught _ => ⟨500, false⟩

/-! ## Tokenization, style resolution and NPU-accelerated creation
(`kokoro_mlir_integration.py` lines 106-197) -/

/-- Typed rendering of the exceptions arising inside
`_create_audio_npu_accelerated`: `ValueError("Empty text provided")`
(line 154), the numpy `IndexError` from `voice_style[len(tokens)]` when the
index is past the style table (line 160), and any exception from the
injected phonemizer/vocabulary/inference calls. -/
inductive KokoroError
  | empty_text
  | style_index_out_of_range
  | runtime (msg : String)
  deriving DecidableEq, Repr

/-- The tokenization stage (lines 150-157): raise on blank-after-strip text,
else phonemize then tokenize through the injected externals. -/
def pipeline_tokens (phonemize : String → String) (tokenize : String → List ℤ)
    (text : String) : Except KokoroError (List ℤ) :=
  if pyStrip text ≠ "" then Except.ok (tokenize (phonemize text))
  else Except.error KokoroError.empty_text

/-- The boundary padding of line 161: `tokens_padded = [[0, *tokens, 0]]`
(a batch holding one padded sequence). -/
def tokens_padded (tokens : List ℤ) : List (List ℤ) :=
  [0 :: (tokens ++ [0])]

/-- `_create_audio_npu_accelerated` (lines 137-197), parameterised by the
injected externals.  The style table `voice_style` for the resolved voice is
indexed by the pre-padding token count `len(tokens)` (line 160); an index
past the table is the `IndexError` case.  Inference runs on the padded
tokens; the sample rate is the constant 24000 (line 188). -/
def create_audio_npu_accelerated {S : Type} (phonemize : String → String)
    (tokenize : String → List ℤ)
    (infer : List (List ℤ) → S → ℚ → Except KokoroError (List ℚ))
    (voice_style : List S) (text : String) (speed : ℚ) :
    Except KokoroError (List ℚ × ℕ) :=
  match pipeline_tokens phonemize tokenize text with
  | Except.error e => Except.error e
  | Except.ok tokens =>
      match voice_style[tokens.length]? with
      | none => Except.error KokoroError.style_index_out_of_range
      | some voice_for_length =>
          match infer (tokens_padded tokens) voice_for_length speed with
          | Except.error e => Except.error e
          | Except.ok audio => Except.ok (audio, 24000)

/-- `create_audio` (lines 106-135): when acceleration is enabled, try the
NPU-accelerated path; any exception from the `try` block is caught
(lines 132-135) and the standard CPU `kokoro_standard.create` path is
re-invoked on the unchanged arguments.  When acceleration is disabled the
CPU path runs directly (and its own failure inside the `try` is likewise
retried once on the CPU path by the same `except`). -/
def create_audio {A : Type} (acceleration_enabled : Bool)
    (npu_path : String → String → ℚ → String → Except KokoroError A)
    (cpu_path : String → String → ℚ → String → Except KokoroError A)
    (text voice : String) (speed : ℚ) (lang : String) : Except KokoroError A :=
  let attempt :=
    if acceleration_enabled then npu_path text voice speed lang
    else cpu_path text voice speed lang
  match attempt with
  | Except.ok a => Except.ok a
  | Except.error _ => cpu_path text voice speed lang

/-- Modelled from the spec: `accelerated_inference` lives in the
`kokoro_mlir_npu` module, which is not under `src/`; `src` only wires it in
(`_wrap_session_for_mlir_npu`, lines 71-84).  Spec §4.5: "On any
accelerator-side exception, catches it, logs a warning, and re-invokes
`defaultExec(inputs)` unchanged". -/
def accelerated_run {I O E : Type} (accel : I → Except E O)
    (defaultExec : I → Except E O) (inputs : I) : Except E O :=
  match accel inputs with
  | Except.ok o => Except.ok o
  | Except.error _ => defaultExec inputs

/-! ## 16-bit PCM persistence (`/synthesize` handler, lines 1452-1458) -/

/-- `np.clip(audio, -1.0, 1.0)` on one sample. -/
def np_clip (x : ℚ) : ℚ := max (-1) (min 1 x)

/-- Truncation toward zero, the behaviour of `.astype(np.int16)` on a float
value already within the int16 range. -/
def rat_trunc (q : ℚ) : ℤ := if 0 ≤ q then ⌊q⌋ else ⌈q⌉

/-- One sample of `(np.clip(audio, -1.0, 1.0) * 32767).astype(np.int16)`
(line 1457). -/
def to_pcm16 (x : ℚ) : ℤ := rat_trunc (np_clip x * 32767)

/-- Reading a 16-bit PCM sample back and rescaling to `[-1, 1]`. -/
def from_pcm16 (n : ℤ) : ℚ := (n : ℚ) / 32767

/-- Writing an audio array as 16-bit PCM and reading it back rescaled. -/
def pcm16_roundtrip (audio : List ℚ) : List ℚ :=
  audio.map (fun x => from_pcm16 (to_pcm16 x))

/-! ## The `/settings` POST handler
(`web_interface_magic_unicorn.py` lines 1552-1570) -/

/-- One iteration of the loop at lines 1559-1561: `if key in APP_SETTINGS:
APP_SETTINGS[key] = value`.  The settings dict is an association list; a
present key has its value replaced, an absent key is ignored. -/
def settings_step {V : Type} (acc : List (String × V)) (kv : String × V) :
    List (String × V) :=
  if (acc.map Prod.fst).contains kv.1 then
    acc.map (fun e => if e.1 = kv.1 then (e.1, kv.2) else e)
  else acc

/-- The `POST /settings` update of the settings map (lines 1557-1561):
iterate over the payload's items, updating only keys already present. -/
def post_settings {V : Type} (settings payload : List (String × V)) :
    List (String × V) :=
  payload.foldl settings_step settings

/-- Reading one key of the settings dict (`APP_SETTINGS[key]`), on the
association-list representation. -/
def dict_get {V : Type} (k : String) : List (String × V) → Option V
  | [] => none
  | e :: es => if e.1 = k then some e.2 else dict_get k es

/-! ## Theorems -/

/-- C1 — counterexample: the spec's selector gives the basic-accelerated
backend for `select("auto", capability)` when only basic acceleration is
available, but the code's selection (`create_audio`, which branches only on
`acceleration_enabled`) has no basic-accelerated tier and yields CPU there. -/
theorem C1_select_counterexample :
    select_spec "auto" ⟨false, true⟩ = Backend.basic_accelerated ∧
    create_audio_backend false = Backend.cpu ∧
    Backend.basic_accelerated ≠ Backend.cpu := by
  refine ⟨rfl, rfl, ?_⟩
  intro h
  exact Backend.noConfusion h

/-- C1 (amended): backend selection in the code is two-level —
`create_audio` picks the accelerated path iff `acceleration_enabled`, else
CPU, and never picks a basic-accelerated tier; the web interface's
subprocess path ignores the requested method entirely (its result is the
same for any two methods), so explicit backend requests are not honored
and selection never hard-fails. -/
theorem C1_amended_selection (acceleration_enabled : Bool)
    (worker : String → String → WorkerOutput)
    (json_loads : String → Except String WorkerMsg)
    (np_load : String → Option (List ℚ)) (text voice m₁ m₂ : String) :
    create_audio_backend true = Backend.accelerated ∧
    create_audio_backend false = Backend.cpu ∧
    create_audio_backend acceleration_enabled ≠ Backend.basic_accelerated ∧
    run_synthesis_subprocess worker json_loads np_load text voice m₁ =
      run_synthesis_subprocess worker json_loads np_load text voice m₂ := by
  refine ⟨rfl, rfl, ?_, rfl⟩
  cases acceleration_enabled <;> simp [create_audio_backend]

/-- C2 — counterexample: the `/synthesize` handler does not guard the rtf
division; on an empty audio array (duration 0) the division raises
(`synthesize_rtf _ 0 = none`) and the handler answers 500, it does not
yield `rtf = 0`. -/
theorem C2_rtf_counterexample :
    synthesize_rtf 1 0 = none ∧
    synthesize (fun _ _ _ => SubprocessResult.ok [] 24000 "Real Kokoro TTS" "af_heart")
      1 "hello" "af_heart" "auto" = ⟨500, false⟩ := by
  constructor
  · rfl
  · have h1 : pyStrip "hello" = "hello" := by decide
    simp [synthesize, h1, synthesize_rtf]

/-- C2 (amended): only `_create_audio_npu_accelerated` guards the rtf
division (`audio_duration = 0` yields `rtf = 0` there); the `/synthesize`
handler computes `generation_time / audio_duration` unguarded, so a zero
`audio_duration` raises `ZeroDivisionError` (turned into a 500 by the
handler's catch-all) instead of yielding 0, while a nonzero duration gives
the quotient on both paths. -/
theorem C2_rtf_amended (g d : ℚ) (hd : d ≠ 0) :
    npu_rtf g 0 = 0 ∧
    synthesize_rtf g 0 = none ∧
    synthesize_rtf g d = some (g / d) ∧
    npu_rtf g d = (if 0 < d then g / d else 0) := by
  refine ⟨by simp [npu_rtf], by simp [synthesize_rtf], by simp [synthesize_rtf, hd], rfl⟩

/-- Witness for `C2_rtf_amended` at `g = 1`, `d = 2`. -/
theorem C2_rtf_amended_witness :
    (2 : ℚ) ≠ 0 ∧
    (npu_rtf 1 0 = 0 ∧ synthesize_rtf 1 0 = none ∧
      synthesize_rtf 1 2 = some (1 / 2) ∧ npu_rtf 1 2 = (if 0 < (2 : ℚ) then 1 / 2 else 0)) :=
  ⟨by norm_num, C2_rtf_amended 1 2 (by norm_num)⟩

/-- C4: on text that is non-blank after stripping, tokenization succeeds and
the padded sequence `[0, *tokens, 0]` starts and ends with the boundary id 0
and has length `len(tokens) + 2`. -/
theorem C4_boundary_padding (phonemize : String → String) (tokenize : String → List ℤ)
    (text : String) (h : pyStrip text ≠ "") :
    pipeline_tokens phonemize tokenize text = Except.ok (tokenize (phonemize text)) ∧
    tokens_padded (tokenize (phonemize text)) =
      [0 :: (tokenize (phonemize text) ++ [0])] ∧
    (0 :: (tokenize (phonemize text) ++ [0])).head? = some 0 ∧
    (0 :: (tokenize (phonemize text) ++ [0])).getLast? = some 0 ∧
    (0 :: (tokenize (phonemize text) ++ [0])).length =
      (tokenize (phonemize text)).length + 2 := by
  refine ⟨by simp [pipeline_tokens, h], rfl, rfl, ?_, by simp⟩
  exact List.getLast?_concat (0 :: tokenize (phonemize text))

/-- Witness for `C4_boundary_padding` on text `"hi"` with a two-token
vocabulary image. -/
theorem C4_boundary_padding_witness :
    pyStrip "hi" ≠ "" ∧
    (pipeline_tokens id (fun _ => ([5, 6] : List ℤ)) "hi" = Except.ok [5, 6] ∧
      tokens_padded ([5, 6] : List ℤ) = [[0, 5, 6, 0]] ∧
      ([0, 5, 6, 0] : List ℤ).head? = some 0 ∧
      ([0, 5, 6, 0] : List ℤ).getLast? = some 0 ∧
      ([0, 5, 6, 0] : List ℤ).length = ([5, 6] : List ℤ).length + 2) :=
  ⟨by decide, C4_boundary_padding id (fun _ => [5, 6]) "hi" (by decide)⟩

/-- C6: blank-after-strip text makes `/synthesize` answer 400 with
`success: false`, with a result independent of the synthesis runner (no
synthesis is consulted), and makes the tokenization stage fail with the
empty-input error rather than proceed. -/
theorem C6_blank_text_400 (run run' : String → String → String → SubprocessResult)
    (generation_time : ℚ) (text voice method : String)
    (phonemize : String → String) (tokenize : String → List ℤ)
    (h : pyStrip text = "") :
    synthesize run generation_time text voice method = ⟨400, false⟩ ∧
    synthesize run generation_time text voice method =
      synthesize run' generation_time text voice method ∧
    pipeline_tokens phonemize tokenize text = Except.error KokoroError.empty_text := by
  refine ⟨by simp [synthesize, h], by simp [synthesize, h], by simp [pipeline_tokens, h]⟩

/-- Witness for `C6_blank_text_400` on the whitespace text `"  "`. -/
theorem C6_blank_text_400_witness :
    pyStrip "  " = "" ∧
    (synthesize (fun _ _ _ => SubprocessResult.err "a") 1 "  " "af_heart" "auto" = ⟨400, false⟩ ∧
      synthesize (fun _ _ _ => SubprocessResult.err "a") 1 "  " "af_heart" "auto" =
        synthesize (fun _ _ _ => SubprocessResult.err "b") 1 "  " "af_heart" "auto" ∧
      pipeline_tokens id (fun _ => [1]) "  " = Except.error KokoroError.empty_text) :=
  ⟨by decide, C6_blank_text_400 (fun _ _ _ => SubprocessResult.err "a")
    (fun _ _ _ => SubprocessResult.err "b") 1 "  " "af_heart" "auto" id (fun _ => [1])
    (by decide)⟩

/-- C7: an accelerator-side failure is absorbed — `accelerated_run` falls
back to `defaultExec` on the unchanged inputs, and `create_audio` re-invokes
the CPU path on the unchanged arguments, so the request succeeds whenever
the CPU path does. -/
theorem C7_acceleration_fallback {I O E A : Type} (accel defaultExec : I → Except E O)
    (inputs : I) (e : E)
    (npu_path cpu_path : String → String → ℚ → String → Except KokoroError A)
    (text voice : String) (speed : ℚ) (lang : String) (e' : KokoroError) (a : A)
    (haccel : accel inputs = Except.error e)
    (hnpu : npu_path text voice speed lang = Except.error e')
    (hcpu : cpu_path text voice speed lang = Except.ok a) :
    accelerated_run accel defaultExec inputs = defaultExec inputs ∧
    create_audio true npu_path cpu_path text voice speed lang =
      cpu_path text voice speed lang ∧
    create_audio true npu_path cpu_path text voice speed lang = Except.ok a := by
  refine ⟨by simp [accelerated_run, haccel], ?_, ?_⟩
  · simp [create_audio, hnpu, hcpu]
  · simp [create_audio, hnpu, hcpu]

/-- Witness for `C7_acceleration_fallback` with one-point executors. -/
theorem C7_acceleration_fallback_witness :
    (fun _ : ℕ => (Except.error 7 : Except ℕ ℕ)) 0 = Except.error 7 ∧
    (fun _ _ _ _ => (Except.error KokoroError.empty_text : Except KokoroError ℕ))
      "t" "v" 1 "en-us" = Except.error KokoroError.empty_text ∧
    (fun _ _ _ _ => (Except.ok 3 : Except KokoroError ℕ)) "t" "v" 1 "en-us" = Except.ok 3 ∧
    (accelerated_run (fun _ : ℕ => (Except.error 7 : Except ℕ ℕ))
        (fun _ => Except.ok 9) 0 = (fun _ : ℕ => (Except.ok 9 : Except ℕ ℕ)) 0 ∧
      create_audio true (fun _ _ _ _ => Except.error KokoroError.empty_text)
          (fun _ _ _ _ => Except.ok 3) "t" "v" 1 "en-us" =
        (fun _ _ _ _ => (Except.ok 3 : Except KokoroError ℕ)) "t" "v" 1 "en-us" ∧
      create_audio true (fun _ _ _ _ => Except.error KokoroError.empty_text)
          (fun _ _ _ _ => Except.ok 3) "t" "v" 1 "en-us" = Except.ok 3) :=
  ⟨rfl, rfl, rfl,
    C7_acceleration_fallback (fun _ => Except.error 7) (fun _ => Except.ok 9) 0 7
      (fun _ _ _ _ => Except.error KokoroError.empty_text) (fun _ _ _ _ => Except.ok 3)
      "t" "v" 1 "en-us" KokoroError.empty_text 3 rfl rfl rfl⟩

/-- Any artifact write of the worker script goes to the constant path. -/
theorem worker_script_wrote_path (c : String → String → Except String (List ℚ × ℕ))
    (t v p : String) (a : List ℚ)
    (h : (worker_script c t v).1 = WorkerWrite.wrote p a) :
    p = "/tmp/synthesis_result.npy" := by
  unfold worker_script at h
  cases hc : c t v with
  | ok x =>
      rcases x with ⟨au, sr⟩
      rw [hc] at h
      exact ((WorkerWrite.wrote.injEq _ _ _ _).mp h).1.symm
  | error e =>
      rw [hc] at h
      exact WorkerWrite.noConfusion h

/-- C10: whenever the worker persists an audio artifact, the path is the
constant `/tmp/synthesis_result.npy`, for any two requests whatever their
text, voice or creation function. -/
theorem C10_fixed_artifact_path
    (create₁ create₂ : String → String → Except String (List ℚ × ℕ))
    (t₁ v₁ t₂ v₂ p₁ p₂ : String) (a₁ a₂ : List ℚ)
    (h₁ : (worker_script create₁ t₁ v₁).1 = WorkerWrite.wrote p₁ a₁)
    (h₂ : (worker_script create₂ t₂ v₂).1 = WorkerWrite.wrote p₂ a₂) :
    p₁ = "/tmp/synthesis_result.npy" ∧ p₂ = p₁ := by
  have e₁ := worker_script_wrote_path create₁ t₁ v₁ p₁ a₁ h₁
  have e₂ := worker_script_wrote_path create₂ t₂ v₂ p₂ a₂ h₂
  exact ⟨e₁, e₂.trans e₁.symm⟩

/-- Witness for `C10_fixed_artifact_path` with two concrete invocations. -/
theorem C10_fixed_artifact_path_witness :
    (worker_script (fun _ _ => Except.ok ([1], 24000)) "hello" "af_heart").1 =
      WorkerWrite.wrote "/tmp/synthesis_result.npy" [1] ∧
    (worker_script (fun _ _ => Except.ok ([2, 3], 24000)) "bye" "af_sky").1 =
      WorkerWrite.wrote "/tmp/synthesis_result.npy" [2, 3] ∧
    ("/tmp/synthesis_result.npy" = "/tmp/synthesis_result.npy" ∧
      "/tmp/synthesis_result.npy" = "/tmp/synthesis_result.npy") :=
  ⟨rfl, rfl,
    C10_fixed_artifact_path (fun _ _ => Except.ok ([1], 24000))
      (fun _ _ => Except.ok ([2, 3], 24000)) "hello" "af_heart" "bye" "af_sky"
      "/tmp/synthesis_result.npy" "/tmp/synthesis_result.npy" [1] [2, 3] rfl rfl⟩

/-- C5: the style table is indexed by the pre-padding token count
`len(tokens)`; an index past the table yields the typed out-of-range error
(the numpy `IndexError`), never an out-of-bounds read — the lookup is
total — and a failed synthesis result is mapped by the `/synthesize`
handler to a 500 JSON error, not a crash of the serving process. -/
theorem C5_style_index {S : Type} (phonemize : String → String)
    (tokenize : String → List ℤ)
    (infer : List (List ℤ) → S → ℚ → Except KokoroError (List ℚ))
    (voice_style : List S) (text : String) (speed : ℚ)
    (run : String → String → String → SubprocessResult) (generation_time : ℚ)
    (voice method msg : String)
    (hne : pyStrip text ≠ "")
    (hlen : voice_style.length ≤ (tokenize (phonemize text)).length)
    (hrun : run text voice method = SubprocessResult.err msg) :
    create_audio_npu_accelerated phonemize tokenize infer voice_style text speed =
      Except.error KokoroError.style_index_out_of_range ∧
    synthesize run generation_time text voice method = ⟨500, false⟩ := by
  constructor
  · simp [create_audio_npu_accelerated, pipeline_tokens, hne, List.getElem?_eq_none hlen]
  · unfold synthesize
    rw [if_neg hne, hrun]

/-- Witness for `C5_style_index`: a one-bucket style table with a
three-token text. -/
theorem C5_style_index_witness :
    pyStrip "hi" ≠ "" ∧
    ([42] : List ℕ).length ≤ ((fun _ : String => ([5, 6, 7] : List ℤ)) (id "hi")).length ∧
    (fun _ _ _ : String => SubprocessResult.err "boom") "hi" "af_heart" "auto" =
      SubprocessResult.err "boom" ∧
    (create_audio_npu_accelerated id (fun _ => ([5, 6, 7] : List ℤ))
        (fun _ _ _ => Except.ok []) ([42] : List ℕ) "hi" 1 =
      Except.error KokoroError.style_index_out_of_range ∧
    synthesize (fun _ _ _ => SubprocessResult.err "boom") 1 "hi" "af_heart" "auto" =
      ⟨500, false⟩) :=
  ⟨by decide, by decide, rfl,
    C5_style_index id (fun _ => [5, 6, 7]) (fun _ _ _ => Except.ok []) [42] "hi" 1
      (fun _ _ _ => SubprocessResult.err "boom") 1 "af_heart" "auto" "boom"
      (by decide) (by decide) rfl⟩

/-- C3 — counterexample: a worker run that exits 0 and prints a well-formed
success line referencing a missing audio artifact is NOT normalized into a
structured `success: false` result; `np.load` raises `FileNotFoundError`,
which the function's only handler (`except json.JSONDecodeError`) does not
catch, so it escapes `run_synthesis_subprocess` uncaught. -/
theorem C3_missing_artifact_counterexample :
    process_worker_output
      (fun _ => Except.ok
        (WorkerMsg.success 24000 "/tmp/synthesis_result.npy" "Real Kokoro TTS" "af_heart"))
      (fun _ => none) ⟨0, "\x7bok\x7d", ""⟩ =
    SubprocessResult.uncaught
      "FileNotFoundError: [Errno 2] No such file or directory: '/tmp/synthesis_result.npy'"
    := by
  rfl

/-- C3 (amended): of the four abnormal worker outcomes, the first three —
non-zero exit code, empty stdout, and stdout with no parsable structured
line — are normalized into structured `success: false` results whose
message carries the raw stdout/stderr; a missing audio artifact referenced
by a success line is the exception: it escapes as an uncaught
`FileNotFoundError` (handled only by the route-level catch-all). -/
theorem C3_worker_protocol_errors
    (json_loads : String → Except String WorkerMsg) (np_load : String → Option (List ℚ))
    (out₁ out₂ out₃ out₄ out₅ : WorkerOutput) (line₄ line₅ e₄ file₅ mu₅ v₅ : String)
    (sr₅ : ℕ)
    (h₁ : out₁.returncode ≠ 0)
    (h₂a : out₂.returncode = 0) (h₂b : pyStrip out₂.stdout = "")
    (h₃a : out₃.returncode = 0) (h₃b : pyStrip out₃.stdout ≠ "")
    (h₃c : find_json_line (split_nl (pyStrip out₃.stdout)) = none)
    (h₄a : out₄.returncode = 0) (h₄b : pyStrip out₄.stdout ≠ "")
    (h₄c : find_json_line (split_nl (pyStrip out₄.stdout)) = some line₄)
    (h₄d : json_loads line₄ = Except.error e₄)
    (h₅a : out₅.returncode = 0) (h₅b : pyStrip out₅.stdout ≠ "")
    (h₅c : find_json_line (split_nl (pyStrip out₅.stdout)) = some line₅)
    (h₅d : json_loads line₅ = Except.ok (WorkerMsg.success sr₅ file₅ mu₅ v₅))
    (h₅e : np_load file₅ = none) :
    process_worker_output json_loads np_load out₁ =
      SubprocessResult.err (nonzero_exit_msg out₁.returncode out₁.stdout out₁.stderr) ∧
    process_worker_output json_loads np_load out₂ =
      SubprocessResult.err (empty_output_msg out₂.stderr) ∧
    process_worker_output json_loads np_load out₃ =
      SubprocessResult.err (no_json_msg out₃.stdout out₃.stderr) ∧
    process_worker_output json_loads np_load out₄ =
      SubprocessResult.err (parse_error_msg e₄ out₄.stdout out₄.stderr) ∧
    process_worker_output json_loads np_load out₅ =
      SubprocessResult.uncaught
        ("FileNotFoundError: [Errno 2] No such file or directory: '" ++ file₅ ++ "'") := by
  refine ⟨?_, ?_, ?_, ?_, ?_⟩
  · simp [process_worker_output, h₁]
  · simp [process_worker_output, h₂a, h₂b]
  · simp [process_worker_output, h₃a, h₃b, h₃c]
  · simp [process_worker_output, h₄a, h₄b, h₄c, h₄d]
  · simp [process_worker_output, h₅a, h₅b, h₅c, h₅d, h₅e]

/-- Witness for `C3_worker_protocol_errors` on five concrete worker
outputs. -/
theorem C3_worker_protocol_errors_witness :
    ((1 : ℤ) ≠ 0 ∧ pyStrip " " = "" ∧ pyStrip "diag" ≠ "" ∧
      find_json_line (split_nl (pyStrip "diag")) = none ∧
      find_json_line (split_nl (pyStrip "\x7bbad\x7d")) = some "\x7bbad\x7d" ∧
      find_json_line (split_nl (pyStrip "\x7bok\x7d")) = some "\x7bok\x7d") ∧
    (process_worker_output
        (fun s => if s = "\x7bok\x7d" then
            Except.ok (WorkerMsg.success 24000 "/tmp/synthesis_result.npy"
              "Real Kokoro TTS" "af_heart")
          else Except.error "Expecting value: line 1 column 1 (char 0)")
        (fun _ => none) ⟨1, "", "boom"⟩ =
        SubprocessResult.err (nonzero_exit_msg 1 "" "boom") ∧
      process_worker_output
        (fun s => if s = "\x7bok\x7d" then
            Except.ok (WorkerMsg.success 24000 "/tmp/synthesis_result.npy"
              "Real Kokoro TTS" "af_heart")
          else Except.error "Expecting value: line 1 column 1 (char 0)")
        (fun _ => none) ⟨0, " ", "warn"⟩ =
        SubprocessResult.err (empty_output_msg "warn") ∧
      process_worker_output
        (fun s => if s = "\x7bok\x7d" then
            Except.ok (WorkerMsg.success 24000 "/tmp/synthesis_result.npy"
              "Real Kokoro TTS" "af_heart")
          else Except.error "Expecting value: line 1 column 1 (char 0)")
        (fun _ => none) ⟨0, "diag", "w3"⟩ =
        SubprocessResult.err (no_json_msg "diag" "w3") ∧
      process_worker_output
        (fun s => if s = "\x7bok\x7d" then
            Except.ok (WorkerMsg.success 24000 "/tmp/synthesis_result.npy"
              "Real Kokoro TTS" "af_heart")
          else Except.error "Expecting value: line 1 column 1 (char 0)")
        (fun _ => none) ⟨0, "\x7bbad\x7d", "w4"⟩ =
        SubprocessResult.err (parse_error_msg
          "Expecting value: line 1 column 1 (char 0)" "\x7bbad\x7d" "w4") ∧
      process_worker_output
        (fun s => if s = "\x7bok\x7d" then
            Except.ok (WorkerMsg.success 24000 "/tmp/synthesis_result.npy"
              "Real Kokoro TTS" "af_heart")
          else Except.error "Expecting value: line 1 column 1 (char 0)")
        (fun _ => none) ⟨0, "\x7bok\x7d", "w5"⟩ =
        SubprocessResult.uncaught
          ("FileNotFoundError: [Errno 2] No such file or directory: '"
            ++ "/tmp/synthesis_result.npy" ++ "'")) :=
  ⟨⟨by decide, by decide, by decide, by decide, by decide, by decide⟩,
    C3_worker_protocol_errors
      (fun s => if s = "\x7bok\x7d" then
          Except.ok (WorkerMsg.success 24000 "/tmp/synthesis_result.npy"
            "Real Kokoro TTS" "af_heart")
        else Except.error "Expecting value: line 1 column 1 (char 0)")
      (fun _ => none) ⟨1, "", "boom"⟩ ⟨0, " ", "warn"⟩ ⟨0, "diag", "w3"⟩
      ⟨0, "\x7bbad\x7d", "w4"⟩ ⟨0, "\x7bok\x7d", "w5"⟩
      "\x7bbad\x7d" "\x7bok\x7d" "Expecting value: line 1 column 1 (char 0)"
      "/tmp/synthesis_result.npy" "Real Kokoro TTS" "af_heart" 24000
      (by decide) rfl (by decide) rfl (by decide) (by decide) rfl (by decide)
      (by decide) rfl rfl (by decide) (by decide) rfl rfl⟩

/-- Truncation toward zero moves a rational by less than one. -/
theorem rat_trunc_close (q : ℚ) : |q - (rat_trunc q : ℚ)| ≤ 1 := by
  unfold rat_trunc
  by_cases h : 0 ≤ q
  · rw [if_pos h]
    have h1 : (⌊q⌋ : ℚ) ≤ q := Int.floor_le q
    have h2 : q < ⌊q⌋ + 1 := Int.lt_floor_add_one q
    rw [abs_le]
    constructor <;> linarith
  · rw [if_neg h]
    have h1 : q ≤ (⌈q⌉ : ℚ) := Int.le_ceil q
    have h2 : (⌈q⌉ : ℚ) < q + 1 := Int.ceil_lt_add_one q
    rw [abs_le]
    constructor <;> linarith

/-- One in-range sample survives the 16-bit PCM round trip to within
`1/32767`. -/
theorem pcm16_sample_close (x : ℚ) (h1 : -1 ≤ x) (h2 : x ≤ 1) :
    |x - from_pcm16 (to_pcm16 x)| ≤ 1 / 32767 := by
  have hclip : np_clip x = x := by
    unfold np_clip
    rw [min_eq_right h2, max_eq_right h1]
  have h327 : (0 : ℚ) < 32767 := by norm_num
  have heq : x - from_pcm16 (to_pcm16 x)
      = (x * 32767 - (rat_trunc (x * 32767) : ℚ)) / 32767 := by
    unfold from_pcm16 to_pcm16
    rw [hclip, eq_div_iff (by norm_num : (32767 : ℚ) ≠ 0)]
    ring
  rw [heq, abs_div, abs_of_pos h327]
  exact (div_le_div_iff_of_pos_right h327).mpr (rat_trunc_close (x * 32767))

/-- C8: every audio array with samples in `[-1, 1]`, written as 16-bit PCM
(clip, scale by 32767, truncate) and read back rescaled, reproduces each
sample within quantization error `1/32767`. -/
theorem C8_pcm16_roundtrip (audio : List ℚ)
    (h : List.Forall (fun x => -1 ≤ x ∧ x ≤ 1) audio) :
    List.Forall₂ (fun a b => |a - b| ≤ 1 / 32767) audio (pcm16_roundtrip audio) := by
  unfold pcm16_roundtrip
  induction audio with
  | nil => exact List.Forall₂.nil
  | cons x xs ih =>
      rw [List.forall_cons] at h
      exact List.Forall₂.cons (pcm16_sample_close x h.1.1 h.1.2) (ih h.2)

/-- Witness for `C8_pcm16_roundtrip` on the array `[1, -1, 1/2, 0]`. -/
theorem C8_pcm16_roundtrip_witness :
    List.Forall (fun x => -1 ≤ x ∧ x ≤ 1) ([1, -1, 1/2, 0] : List ℚ) ∧
    List.Forall₂ (fun a b => |a - b| ≤ 1 / 32767) ([1, -1, 1/2, 0] : List ℚ)
      (pcm16_roundtrip [1, -1, 1/2, 0]) :=
  ⟨by norm_num [List.Forall], C8_pcm16_roundtrip _ (by norm_num [List.Forall])⟩

/-- Updating one key leaves the key list of an association list unchanged. -/
theorem map_fst_update {V : Type} (l : List (String × V)) (k : String) (v : V) :
    (l.map (fun e => if e.1 = k then (e.1, v) else e)).map Prod.fst = l.map Prod.fst := by
  induction l with
  | nil => rfl
  | cons e rest ih =>
      simp only [List.map_cons, ih]
      congr 1
      by_cases he : e.1 = k
      · rw [if_pos he]
      · rw [if_neg he]

/-- One payload item leaves the settings key list unchanged. -/
theorem settings_step_keys {V : Type} (acc : List (String × V)) (kv : String × V) :
    (settings_step acc kv).map Prod.fst = acc.map Prod.fst := by
  unfold settings_step
  split
  · exact map_fst_update acc kv.1 kv.2
  · rfl

/-- The whole POST leaves the settings key list unchanged. -/
theorem post_settings_keys {V : Type} (payload settings : List (String × V)) :
    (post_settings settings payload).map Prod.fst = settings.map Prod.fst := by
  induction payload generalizing settings with
  | nil => rfl
  | cons kv rest ih =>
      show (post_settings (settings_step settings kv) rest).map Prod.fst = _
      rw [ih (settings_step settings kv), settings_step_keys]

/-- Updating key `k'` does not change the value read at a different key. -/
theorem dict_get_update_ne {V : Type} (l : List (String × V)) (k k' : String) (v : V)
    (h : k ≠ k') :
    dict_get k (l.map (fun e => if e.1 = k' then (e.1, v) else e)) = dict_get k l := by
  induction l with
  | nil => rfl
  | cons e rest ih =>
      simp only [List.map_cons]
      by_cases he : e.1 = k'
      · rw [if_pos he]
        unfold dict_get
        by_cases hk : e.1 = k
        · exact absurd (hk.symm.trans he) h
        · rw [if_neg hk, if_neg hk]
          exact ih
      · rw [if_neg he]
        unfold dict_get
        by_cases hk : e.1 = k
        · rw [if_pos hk, if_pos hk]
        · rw [if_neg hk, if_neg hk]
          exact ih

/-- One payload item with another key does not change the value at `k`. -/
theorem settings_step_get_ne {V : Type} (acc : List (String × V)) (kv : String × V)
    (k : String) (h : k ≠ kv.1) :
    dict_get k (settings_step acc kv) = dict_get k acc := by
  unfold settings_step
  split
  · exact dict_get_update_ne acc k kv.1 kv.2 h
  · rfl

/-- A POST whose payload omits `k` does not change the value at `k`. -/
theorem post_settings_get_ne {V : Type} (payload settings : List (String × V))
    (k : String) (h : k ∉ payload.map Prod.fst) :
    dict_get k (post_settings settings payload) = dict_get k settings := by
  induction payload generalizing settings with
  | nil => rfl
  | cons kv rest ih =>
      simp only [List.map_cons, List.mem_cons, not_or] at h
      show dict_get k (post_settings (settings_step settings kv) rest) = _
      rw [ih (settings_step settings kv) h.2, settings_step_get_ne settings kv k h.1]

/-- C9: a `POST /settings` payload updates only keys already present — the
key set of the settings map is unchanged by every POST, and a key absent
from the payload keeps its value. -/
theorem C9_settings_frame {V : Type} (settings payload : List (String × V)) (k : String)
    (h : k ∉ payload.map Prod.fst) :
    (post_settings settings payload).map Prod.fst = settings.map Prod.fst ∧
    dict_get k (post_settings settings payload) = dict_get k settings :=
  ⟨post_settings_keys payload settings, post_settings_get_ne payload settings k h⟩

/-- Witness for `C9_settings_frame`: a payload touching one known key and
one unknown key leaves the other keys and the key set alone. -/
theorem C9_settings_frame_witness :
    "preferred_method" ∉ ([("speed", 5), ("bogus", 9)] : List (String × ℕ)).map Prod.fst ∧
    ((post_settings [("preferred_method", 1), ("speed", 2)]
        ([("speed", 5), ("bogus", 9)] : List (String × ℕ))).map Prod.fst =
      ([("preferred_method", 1), ("speed", 2)] : List (String × ℕ)).map Prod.fst ∧
    dict_get "preferred_method"
        (post_settings [("preferred_method", 1), ("speed", 2)]
          ([("speed", 5), ("bogus", 9)] : List (String × ℕ))) =
      dict_get "preferred_method" ([("preferred_method", 1), ("speed", 2)] : List (String × ℕ))) :=
  ⟨by decide, C9_settings_frame [("preferred_method", 1), ("speed", 2)]
    [("speed", 5), ("bogus", 9)] "preferred_method" (by decide)⟩

end MagicUnicorn
